import Mathlib

/-!
Shallow embedding of the ray-tune KMNIST hyperparameter-search repository
(`main.py`, `mlp.py`) and proofs of the behavioural claims about it.

Modelling conventions:
* Machine floats that the code only ever adds, divides and compares are
  modelled as exact rationals (`ℚ`).
* The external deep-learning framework's numeric internals (autograd,
  the Adam update, `log_softmax`, `exp`, convolution payloads) are taken
  as explicit function parameters; the repository's own control flow,
  data plumbing and arithmetic are embedded concretely.
* Side effects of `train` (checkpoint writes via `torch.save`, metric
  reports via `tune.report`) are recorded in an explicit event trace.
-/

namespace RayTune

/-! ## Data model

`load_data` (main.py lines 19-27) loads two distinct torchvision datasets:
`KMNIST(train=True)` and `KMNIST(train=False)`.  A sample is identified by
which dataset it came from together with its index in that dataset. -/

inductive Src
  | trainSet
  | testSet
deriving DecidableEq, Repr

abbrev Sample := Src × Nat

abbrev Batch := List Sample

abbrev Vec := List ℚ

/-- An image tensor: its channel count and its (flattened) payload. -/
structure Image where
  channels : Nat
  data : Vec
deriving DecidableEq

/-- KMNIST is a single-channel image dataset; `load_data` normalizes it with
the single-channel transform `Normalize((0.5,), (0.5,))` (main.py lines 21-22). -/
def loadDataChannels : Nat := 1

/-- An image of the loaded dataset: single channel, pixel payload supplied by
the external dataset contents `pixels`. -/
def datasetImage (pixels : Nat → Vec) (idx : Nat) : Image :=
  ⟨loadDataChannels, pixels idx⟩

/-- `load_data(data_dir)` (main.py lines 19-27): returns the pair
`(trainset, testset)`; the two datasets are loaded independently
(`train=True` vs `train=False`) and share no samples.  The sizes are
parameters (`nTrain = 60000`, `nTest = 10000` for KMNIST). -/
def load_data (nTrain nTest : Nat) : List Sample × List Sample :=
  ((List.range nTrain).map (fun i => (Src.trainSet, i)),
   (List.range nTest).map (fun i => (Src.testSet, i)))

/-! ## Linear-algebra primitives used by the concrete forward pass -/

def dot (a b : Vec) : ℚ := (List.zipWith (· * ·) a b).sum

/-- Parameters of one `nn.Linear` layer. -/
structure LinearParams where
  weight : List Vec
  bias : Vec
deriving DecidableEq

/-- `nn.Linear` application: each output coordinate is a weight-row dot
product plus the bias. -/
def LinearParams.apply (L : LinearParams) (x : Vec) : Vec :=
  List.zipWith (fun row b => dot row x + b) L.weight L.bias

/-- `F.relu` on a vector. -/
def reluV (x : Vec) : Vec := x.map (fun v => max 0 v)

/-- The learned weights of the `MLP` module: its three `nn.Linear` layers
(mlp.py lines 12-14).  This is also the `state_dict` of the model. -/
structure MLPParams where
  fc1 : LinearParams
  fc2 : LinearParams
  fc3 : LinearParams
deriving DecidableEq

/-- The internal state of the Adam optimizer (moment estimates, step
counters); the repository treats it opaquely (it is only saved and
restored), so we model it as an opaque blob of numbers. -/
structure OptState where
  blob : List ℚ
deriving DecidableEq

/-! ## The MLP architecture (mlp.py) -/

/-- One operation of a forward pass, at the architectural level. -/
inductive LayerSpec
  | flattenL
  | linearL (inFeatures outFeatures : Nat)
  | reluL
  | dropoutL (p : ℚ)
  | logSoftmaxL (dim : Nat)
deriving DecidableEq, Repr

/-- The module structure built by `MLP.__init__(l1, l2, dr)`
(mlp.py lines 10-17): three linear layers and a dropout probability. -/
structure MLPArch where
  fc1In : Nat
  fc1Out : Nat
  fc2In : Nat
  fc2Out : Nat
  fc3In : Nat
  fc3Out : Nat
  dropoutP : ℚ
deriving DecidableEq, Repr

/-- `MLP.__init__(l1, l2, dr)` (mlp.py lines 10-17):
`fc1 = Linear(784, l1)`, `fc2 = Linear(l1, l2)`, `fc3 = Linear(l2, 10)`,
`dropout = Dropout(dr)`. -/
def MLP.init (l1 l2 : Nat) (dr : ℚ) : MLPArch :=
  { fc1In := 784, fc1Out := l1
    fc2In := l1, fc2Out := l2
    fc3In := l2, fc3Out := 10
    dropoutP := dr }

/-- The sequence of operations `MLP.forward` applies, in order
(mlp.py lines 19-30): flatten (`x.view(x.shape[0], -1)`), then
`relu(fc1 x)`, dropout, `relu(fc2 x)`, dropout, `relu(fc3 x)`,
`log_softmax(x, dim=1)`. -/
def MLPArch.forwardTrace (m : MLPArch) : List LayerSpec :=
  [.flattenL,
   .linearL m.fc1In m.fc1Out, .reluL, .dropoutL m.dropoutP,
   .linearL m.fc2In m.fc2Out, .reluL, .dropoutL m.dropoutP,
   .linearL m.fc3In m.fc3Out, .reluL, .logSoftmaxL 1]

/-! ## Concrete forward pass of the MLP -/

/-- `net.train()` / `net.eval()` mode. -/
inductive Mode
  | trainMode
  | evalMode
deriving DecidableEq

/-- Source of dropout randomness: a stream of Bernoulli drop decisions. -/
abbrev RNG := Nat → Bool

/-- `nn.Dropout(p)`: in training mode, zeroes each coordinate with
probability `p` (decision taken from the RNG stream at the cursor) and
scales the survivors by `1 / (1 - p)`; in eval mode it is the identity and
consumes no randomness. -/
def dropoutApply (p : ℚ) (mode : Mode) (rng : RNG) (ctr : Nat) (x : Vec) : Vec × Nat :=
  match mode with
  | .trainMode =>
      ((x.enum.map fun iv => if rng (ctr + iv.1) then 0 else iv.2 / (1 - p)), ctr + x.length)
  | .evalMode => (x, ctr)

/-- `MLP.forward` (mlp.py lines 19-30) on a single sample, with concrete
linear/relu/dropout semantics; `lsm` is the external `F.log_softmax`
applied along dim 1, i.e. to the sample's 10-vector of logits.
Returns the output together with the advanced RNG cursor. -/
def MLP.forward (P : MLPParams) (dr : ℚ) (lsm : Vec → Vec) (mode : Mode)
    (rng : RNG) (ctr : Nat) (img : Image) : Vec × Nat :=
  let x := img.data
  let x := reluV (P.fc1.apply x)
  let s1 := dropoutApply dr mode rng ctr x
  let x := reluV (P.fc2.apply s1.1)
  let s2 := dropoutApply dr mode rng s1.2 x
  let x := reluV (P.fc3.apply s2.1)
  (lsm x, s2.2)

/-! ## The convolutional variant `Net` (main.py lines 30-47) -/

/-- External semantics of the convolution / pooling payloads of `Net`
(the parts supplied by the framework's conv kernels). -/
structure ConvSem where
  conv1Payload : Image → Vec
  conv2Payload : Image → Vec
  pool : Image → Image

/-- The fully-connected weights of `Net` (main.py lines 36-38). -/
structure NetFCParams where
  fc1 : LinearParams
  fc2 : LinearParams
  fc3 : LinearParams

/-- `nn.Conv2d(inCh, outCh, k)` application: a 2-D convolution requires its
input to have exactly `inCh` channels; on a mismatched input the framework
raises a shape error (modelled as `none`). -/
def conv2d (inCh outCh : Nat) (payload : Image → Vec) (img : Image) : Option Image :=
  if img.channels = inCh then some ⟨outCh, payload img⟩ else none

def reluImg (img : Image) : Image := ⟨img.channels, reluV img.data⟩

/-- `Net.forward` (main.py lines 40-47):
`pool(relu(conv1 x))`, `pool(relu(conv2 x))`, `view(-1, 400)`,
`relu(fc1 x)`, `relu(fc2 x)`, `fc3 x`.  The first layer is
`Conv2d(3, 6, 5)` (main.py line 33); `Conv2d(6, 16, 5)` is second
(line 35).  Fails (`none`) on any channel mismatch. -/
def Net.forward (sem : ConvSem) (P : NetFCParams) (img : Image) : Option Vec := do
  let x ← conv2d 3 6 sem.conv1Payload img
  let x := sem.pool (reluImg x)
  let x ← conv2d 6 16 sem.conv2Payload x
  let x := sem.pool (reluImg x)
  let v := x.data
  let v := reluV (P.fc1.apply v)
  let v := reluV (P.fc2.apply v)
  some (P.fc3.apply v)

/-! ## Which model each code site constructs -/

/-- A model constructed by the repository: either the `MLP` variant or the
convolutional `Net` variant. -/
inductive Model
  | mlp (arch : MLPArch)
  | net (l1 l2 : Nat)
deriving DecidableEq

def Model.isMLP : Model → Bool
  | .mlp _ => true
  | .net _ _ => false

/-- main.py line 51: `net = MLP(config["l1"], config["l2"], config["dr"])`
is the only model construction performed by `train`. -/
def train.buildNet (l1 l2 : Nat) (dr : ℚ) : Model :=
  .mlp (MLP.init l1 l2 dr)

/-- main.py line 227:
`best_trained_model = MLP(best_trial.config['l1'], best_trial.config['l2'], best_trial.config['dr'])`
is the only model construction performed by `main`. -/
def main.buildBestModel (l1 l2 : Nat) (dr : ℚ) : Model :=
  .mlp (MLP.init l1 l2 dr)

/-! ## DataLoader model -/

/-- Splits a list into consecutive batches of `bs` elements (the last batch
may be shorter), as a `torch.utils.data.DataLoader` with `drop_last=False`
yields them. -/
def chunkList (bs : Nat) : List Sample → List Batch
  | [] => []
  | x :: xs => (x :: List.take (bs - 1) xs) :: chunkList bs (List.drop (bs - 1) xs)
termination_by xs => xs.length
decreasing_by
  simp only [List.length_drop, List.length_cons]
  omega

/-- `torch.utils.data.DataLoader(dataset, batch_size, shuffle)`.
`order k` is the sample order used on the `k`-th iteration of the loader;
with `shuffle=True` it is a fresh permutation of `dataset` each pass, with
`shuffle=False` it is `dataset` itself. -/
structure DataLoader where
  dataset : List Sample
  batch_size : Nat
  order : Nat → List Sample

/-- `len(loader)`: the number of batches, `ceil(len(dataset) / batch_size)`
with `drop_last=False`. -/
def DataLoader.len (dl : DataLoader) : Nat :=
  (dl.dataset.length + dl.batch_size - 1) / dl.batch_size

/-- The batches the loader yields on its `k`-th iteration. -/
def DataLoader.batchesAt (dl : DataLoader) (k : Nat) : List Batch :=
  chunkList dl.batch_size (dl.order k)

/-! ## The training loop of `train` (main.py lines 92-153)

The framework-supplied numerics of one batch step are abstracted: a training
step (forward, `NLLLoss`, backward, Adam update; lines 103-117) maps the
current parameters, optimizer state and batch to updated parameters and
state plus the scalar `loss.item()` and the batch mean accuracy; a
validation step (lines 126-138, under `no_grad` and eval mode) maps
parameters and batch to the scalar loss and the batch mean accuracy. -/

structure StepResult where
  params : MLPParams
  opt : OptState
  loss : ℚ
  acc : ℚ

structure Dynamics where
  trainStep : MLPParams → OptState → Batch → StepResult
  valStep : MLPParams → Batch → ℚ × ℚ

/-- One observable effect of `train`: processing a training batch,
processing a validation batch, writing the per-epoch checkpoint
(`torch.save((net.state_dict(), optimizer.state_dict()), path)`,
lines 140-142), or calling `tune.report` (lines 149-151). -/
structure Metrics where
  train_loss : ℚ
  loss : ℚ
  train_accuracy : ℚ
  accuracy : ℚ
deriving DecidableEq

inductive Event
  | trainBatch (epoch idx : Nat)
  | valBatch (epoch idx : Nat)
  | checkpointSave (epoch : Nat) (model : MLPParams) (opt : OptState)
  | reportEvent (epoch : Nat) (m : Metrics)
deriving DecidableEq

def Event.isCheckpointSave : Event → Bool
  | .checkpointSave _ _ _ => true
  | _ => false

def Event.isReport : Event → Bool
  | .reportEvent _ _ => true
  | _ => false

def Event.reportedMetrics : Event → Option Metrics
  | .reportEvent _ m => some m
  | _ => none

/-- Accumulator of the training pass over one epoch (main.py lines 93-117):
the evolving parameters and optimizer state, the running sums
`train_epoch_loss` and `train_epoch_acc`, and the emitted events. -/
structure PassState where
  params : MLPParams
  opt : OptState
  lossSum : ℚ
  accSum : ℚ
  events : List Event
deriving DecidableEq

/-- The loop `for i, data in enumerate(trainloader, 0)` (lines 97-117):
each batch performs one train step, adds `loss.item()` to
`train_epoch_loss` and the batch mean accuracy to `train_epoch_acc`. -/
def runTrainPassAux (d : Dynamics) (epoch : Nat) : PassState → Nat → List Batch → PassState
  | s, _, [] => s
  | s, i, b :: bs =>
      let r := d.trainStep s.params s.opt b
      runTrainPassAux d epoch
        { params := r.params, opt := r.opt
          lossSum := s.lossSum + r.loss
          accSum := s.accSum + r.acc
          events := s.events ++ [Event.trainBatch epoch i] }
        (i + 1) bs

def runTrainPass (d : Dynamics) (epoch : Nat) (p : MLPParams) (o : OptState)
    (batches : List Batch) : PassState :=
  runTrainPassAux d epoch ⟨p, o, 0, 0, []⟩ 0 batches

/-- Accumulator of the validation pass (lines 120-138): running sums
`val_epoch_loss`, `val_epoch_acc` and emitted events; the parameters do
not change (`no_grad`). -/
structure ValPassState where
  lossSum : ℚ
  accSum : ℚ
  events : List Event
deriving DecidableEq

/-- The loop `for i, data in enumerate(valloader, 0)` (lines 125-138). -/
def runValPassAux (d : Dynamics) (epoch : Nat) (p : MLPParams) :
    ValPassState → Nat → List Batch → ValPassState
  | s, _, [] => s
  | s, i, b :: bs =>
      let r := d.valStep p b
      runValPassAux d epoch p
        ⟨s.lossSum + r.1, s.accSum + r.2, s.events ++ [Event.valBatch epoch i]⟩
        (i + 1) bs

def runValPass (d : Dynamics) (epoch : Nat) (p : MLPParams) (batches : List Batch) :
    ValPassState :=
  runValPassAux d epoch p ⟨0, 0, []⟩ 0 batches

structure EpochResult where
  params : MLPParams
  opt : OptState
  metrics : Metrics
  events : List Event

/-- One iteration of the epoch loop (main.py lines 92-151): the training
pass, the validation pass, the checkpoint write of
`(net.state_dict(), optimizer.state_dict())` (lines 140-142), and the
metric values used both for the stats lists (lines 144-147) and for
`tune.report` (lines 149-151) - the code computes both from the same
accumulators with the same expressions. -/
def runEpoch (d : Dynamics) (tl vl : DataLoader) (epoch : Nat)
    (p : MLPParams) (o : OptState) : EpochResult :=
  let tp := runTrainPass d epoch p o (tl.batchesAt epoch)
  let vp := runValPass d epoch tp.params (vl.batchesAt epoch)
  let m : Metrics :=
    { train_loss := tp.lossSum / (tl.len : ℚ)
      loss := vp.lossSum / (vl.len : ℚ)
      train_accuracy := tp.accSum / (tl.len : ℚ)
      accuracy := vp.accSum / (vl.len : ℚ) }
  { params := tp.params, opt := tp.opt, metrics := m
    events := tp.events ++ (vp.events ++
      [Event.checkpointSave epoch tp.params tp.opt, Event.reportEvent epoch m]) }

/-- The stats dictionaries `accuracy_stats` / `loss_stats`
(main.py lines 52-59), each holding a `train` and a `val` list. -/
structure Stats where
  trainL : List ℚ
  valL : List ℚ
deriving DecidableEq

/-- What `train` produces: the returned `(accuracy_stats, loss_stats)`
(line 153) plus the trace of its observable effects. -/
structure TrainResult where
  accuracy_stats : Stats
  loss_stats : Stats
  events : List Event
deriving DecidableEq

/-- The epoch loop `for epoch in tqdm(range(1, num_epochs + 1))`
(main.py line 92): runs `n` epochs starting at epoch number `start`,
threading parameters and optimizer state, appending one entry per epoch
to each of the four stats lists (lines 144-147). -/
def trainLoop (d : Dynamics) (tl vl : DataLoader) :
    Nat → Nat → MLPParams → OptState → TrainResult
  | _, 0, _, _ => ⟨⟨[], []⟩, ⟨[], []⟩, []⟩
  | epoch, n + 1, p, o =>
      let e := runEpoch d tl vl epoch p o
      let rest := trainLoop d tl vl (epoch + 1) n e.params e.opt
      ⟨⟨e.metrics.train_accuracy :: rest.accuracy_stats.trainL,
        e.metrics.accuracy :: rest.accuracy_stats.valL⟩,
       ⟨e.metrics.train_loss :: rest.loss_stats.trainL,
        e.metrics.loss :: rest.loss_stats.valL⟩,
       e.events ++ rest.events⟩

/-! ## `train` itself (main.py lines 50-153) -/

/-- Everything `train` receives from outside the repository: the batch-step
semantics, the randomness consumed by `random_split` and the two shuffling
loaders, the fresh weight/optimizer initialization, and the filesystem
contents read by `torch.load`. -/
structure TrainEnv where
  dyn : Dynamics
  shuffledTrainset : List Sample
  trainOrder : Nat → List Sample
  valOrder : Nat → List Sample
  initParams : MLPParams
  initOpt : OptState
  fs : String → MLPParams × OptState

/-- main.py lines 71-75: if `checkpoint_dir` is given, both the model state
and the optimizer state are loaded from the file `"checkpoint"` in that
directory; otherwise the fresh initialization is used. -/
def train.initState (env : TrainEnv) (checkpoint_dir : Option String) :
    MLPParams × OptState :=
  match checkpoint_dir with
  | none => (env.initParams, env.initOpt)
  | some dir => env.fs (dir ++ "/checkpoint")

/-- main.py line 79: `test_abs = int(len(trainset) * 0.8)`.
For every dataset size below `2 ^ 49` the float computation
`int(N * 0.8)` equals the exact `⌊N * 4 / 5⌋` (the float product of `N`
with the IEEE-754 double nearest `0.8` never crosses an integer
boundary before truncation), so it is embedded as exact `Nat` division. -/
def train.testAbs (nTrainset : Nat) : Nat := nTrainset * 4 / 5

/-- `torch.utils.data.random_split(trainset, [a, len - a])`
(main.py lines 80-81): the library draws a random permutation of the
dataset (here the external randomness `shuffled`) and returns the first
`a` elements and the remaining ones. -/
def random_split (shuffled : List Sample) (a : Nat) : List Sample × List Sample :=
  (shuffled.take a, shuffled.drop a)

/-- main.py lines 77-81: load the data and split the training dataset. -/
def train.subsets (env : TrainEnv) (nTrain nTest : Nat) : List Sample × List Sample :=
  random_split env.shuffledTrainset (train.testAbs (load_data nTrain nTest).1.length)

/-- main.py lines 83-90: the two shuffling loaders over the split subsets,
both with `batch_size = int(config["batch_size"])`. -/
def train.loaders (env : TrainEnv) (batch_size : Nat) (nTrain nTest : Nat) :
    DataLoader × DataLoader :=
  let subsets := train.subsets env nTrain nTest
  (⟨subsets.1, batch_size, env.trainOrder⟩, ⟨subsets.2, batch_size, env.valOrder⟩)

/-- The hyperparameter configuration consumed by `train`
(keys `l1`, `l2`, `lr`, `batch_size`, `dr`). -/
structure Config where
  l1 : Nat
  l2 : Nat
  lr : ℚ
  batch_size : Nat
  dr : ℚ
deriving DecidableEq

/-- `train(config, checkpoint_dir, data_dir, num_epochs)`
(main.py lines 50-153).  Line 51 constructs the model
(see `train.buildNet`; its fresh weights are `env.initParams`), lines
68-69 create the loss and the Adam optimizer (their numerics live in
`env.dyn`), lines 71-75 optionally restore from the checkpoint file,
lines 77-90 prepare the data, and lines 92-152 run the epoch loop. -/
def train (env : TrainEnv) (config : Config) (checkpoint_dir : Option String)
    (nTrain nTest num_epochs : Nat) : TrainResult :=
  let init := train.initState env checkpoint_dir
  let ld := train.loaders env config.batch_size nTrain nTest
  trainLoop env.dyn ld.1 ld.2 1 num_epochs init.1 init.2

/-! ## `test_accuracy` (main.py lines 156-176) -/

/-- `ps.topk(1, dim=1)` per sample: the index of the (first) largest entry,
as `torch.topk` returns for `k = 1`. -/
def argmaxIdx (x : Vec) : Nat :=
  ((x.enum.foldl (fun best iv => if best.2 < iv.2 then iv else best)
      (0, x.headD 0))).1

/-- Lines 167-174 for one batch: predictions via
`exp(outputs).topk(1, dim=1)`, comparison with the labels, and
`torch.mean(equals.type(FloatTensor))` - the fraction of correct samples. -/
def batchAccuracy (pred : Sample → Nat) (labels : Nat → Nat) (b : Batch) : ℚ :=
  ((b.filter (fun s => pred s = labels s.2)).length : ℚ) / (b.length : ℚ)

/-- The per-sample prediction of the loaded network in eval mode:
`outputs = net(images)` then `exp`, then the top-1 class
(`expF` is the external `torch.exp`, applied coordinatewise). -/
def evalPrediction (P : MLPParams) (dr : ℚ) (lsm : Vec → Vec) (expF : ℚ → ℚ)
    (pixels : Nat → Vec) (rng : RNG) (s : Sample) : Nat :=
  argmaxIdx (((MLP.forward P dr lsm .evalMode rng 0 (datasetImage pixels s.2)).1).map expF)

/-- `test_accuracy(net, device)` (main.py lines 156-176): reloads the data,
iterates `DataLoader(testset, batch_size=4, shuffle=False)` with the
network in eval mode under `no_grad`, accumulates per-batch mean
accuracies, and divides by `len(testloader)`. -/
def test_accuracy (P : MLPParams) (dr : ℚ) (lsm : Vec → Vec) (expF : ℚ → ℚ)
    (pixels : Nat → Vec) (labels : Nat → Nat) (nTrain nTest : Nat) (rng : RNG) : ℚ :=
  let testset := (load_data nTrain nTest).2
  let testloader : DataLoader := ⟨testset, 4, fun _ => testset⟩
  let batches := testloader.batchesAt 0
  let accSum := batches.foldl
    (fun acc b => acc + batchAccuracy (evalPrediction P dr lsm expF pixels rng) labels b) 0
  accSum / (testloader.len : ℚ)

/-! ## The search driver `main` (main.py lines 179-241) -/

/-- main.py line 183: `"l1": tune.grid_search([2 ** 6, 2 ** 7, 2 ** 8, 2 ** 9])`. -/
def mainL1Values : List Nat := [2 ^ 6, 2 ^ 7, 2 ^ 8, 2 ^ 9]

/-- main.py line 184: `"l2": tune.grid_search([2 ** 6, 2 ** 7, 2 ** 8, 2 ** 9])`. -/
def mainL2Values : List Nat := [2 ^ 6, 2 ^ 7, 2 ^ 8, 2 ^ 9]

/-- main.py line 185: `"lr": tune.grid_search([0.0005, 0.001, 0.0007])`. -/
def mainLrValues : List ℚ := [0.0005, 0.001, 0.0007]

/-- main.py line 186: `"batch_size": tune.grid_search([64, 128, 256])`. -/
def mainBatchSizeValues : List Nat := [64, 128, 256]

/-- main.py line 187: `"dr": tune.grid_search([0.3, 0.5, 0.85])`. -/
def mainDrValues : List ℚ := [0.3, 0.5, 0.85]

/-- The trial set induced by the config of main.py lines 182-189: ray tune
resolves a `grid_search` on every key into the full cross product. -/
def mainGridConfigs : List Config :=
  mainL1Values.flatMap fun a =>
    mainL2Values.flatMap fun b =>
      mainLrValues.flatMap fun c =>
        mainBatchSizeValues.flatMap fun d =>
          mainDrValues.map fun e => ⟨a, b, c, d, e⟩

/-- The arguments of the `ASHAScheduler` constructed at main.py
lines 190-195. -/
structure ASHASchedulerConfig where
  metric : String
  mode : String
  max_t : Nat
  grace_period : Nat
  reduction_factor : Nat
deriving DecidableEq

/-- main.py lines 190-195:
`ASHAScheduler(metric="loss", mode="min", max_t=max_num_epochs, grace_period=1, reduction_factor=2)`. -/
def mainScheduler (max_num_epochs : Nat) : ASHASchedulerConfig :=
  ⟨"loss", "min", max_num_epochs, 1, 2⟩

/-- The `resources_per_trial` dictionary of main.py line 201. -/
structure TrialResources where
  cpu : Nat
  gpu : Nat
deriving DecidableEq

/-- main.py line 201: `resources_per_trial={"cpu": 2, "gpu": gpus_per_trial}`. -/
def mainResources (gpus_per_trial : Nat) : TrialResources :=
  ⟨2, gpus_per_trial⟩

/-- A finished trial as `main` consumes it: its configuration, the `"loss"`
entry of its last reported result, and the contents of its checkpoint file
(the `(model state_dict, optimizer state_dict)` pair written by `train`). -/
structure Trial where
  config : Config
  lastLoss : ℚ
  checkpointModel : MLPParams
  checkpointOpt : OptState
deriving DecidableEq

/-- `result.get_best_trial("loss", "min", "last")` (main.py line 209):
among all trials, one whose last-reported `"loss"` is minimal. -/
def get_best_trial : List Trial → Option Trial
  | [] => none
  | t :: ts =>
      match get_best_trial ts with
      | none => some t
      | some u => if u.lastLoss < t.lastLoss then some u else some t

/-- main.py lines 227-240: build a fresh `MLP` from the best trial's
`l1`, `l2`, `dr` (line 227, see `main.buildBestModel`), read the pair
`(model_state, optimizer_state)` from the best checkpoint (lines 235-237),
load only `model_state` into the model (line 238; `optimizer_state` is
never used), and evaluate `test_accuracy` on it (line 240). -/
def mainEvalPhase (best : Trial) (lsm : Vec → Vec) (expF : ℚ → ℚ)
    (pixels : Nat → Vec) (labels : Nat → Nat) (nTrain nTest : Nat) (rng : RNG) : ℚ :=
  let model_state := best.checkpointModel
  test_accuracy model_state best.config.dr lsm expF pixels labels nTrain nTest rng

/-! ## Independent per-epoch characterizations

The following definitions recompute, by direct recursion over the batch
lists, the quantities the accumulator loops of `train` produce; the claim
theorems equate the two. -/

/-- The sequence of per-batch `(loss.item(), batch accuracy)` pairs the
training pass of one epoch observes, following the evolving state. -/
def trainTrajectory (d : Dynamics) : MLPParams → OptState → List Batch → List (ℚ × ℚ)
  | _, _, [] => []
  | p, o, b :: bs =>
      let r := d.trainStep p o b
      (r.loss, r.acc) :: trainTrajectory d r.params r.opt bs

/-- The parameters and optimizer state after one full training pass. -/
def afterTrain (d : Dynamics) : MLPParams → OptState → List Batch → MLPParams × OptState
  | p, o, [] => (p, o)
  | p, o, b :: bs =>
      let r := d.trainStep p o b
      afterTrain d r.params r.opt bs

/-- The per-batch `(loss, accuracy)` pairs of the validation pass (the
parameters do not change under `no_grad`). -/
def valTrajectory (d : Dynamics) (p : MLPParams) (bs : List Batch) : List (ℚ × ℚ) :=
  bs.map (d.valStep p)

/-- The four metric values of one epoch, expressed as sums of the per-batch
values divided by the loader lengths: exactly what main.py lines 144-151
compute from the running accumulators. -/
def epochMetricsAt (d : Dynamics) (tl vl : DataLoader) (e : Nat)
    (p : MLPParams) (o : OptState) : Metrics :=
  let tb := tl.batchesAt e
  let vb := vl.batchesAt e
  let ttraj := trainTrajectory d p o tb
  let pT := afterTrain d p o tb
  let vtraj := valTrajectory d pT.1 vb
  { train_loss := ((ttraj.map Prod.fst).sum) / (tl.len : ℚ)
    loss := ((vtraj.map Prod.fst).sum) / (vl.len : ℚ)
    train_accuracy := ((ttraj.map Prod.snd).sum) / (tl.len : ℚ)
    accuracy := ((vtraj.map Prod.snd).sum) / (vl.len : ℚ) }

/-- The events one epoch emits: one `trainBatch` event per batch of the
training loader (indices `0, 1, ...` in order), then one `valBatch` event
per batch of the validation loader, then exactly one checkpoint write
carrying the current `(model state_dict, optimizer state_dict)`, then
exactly one `tune.report`. -/
def epochTrace (d : Dynamics) (tl vl : DataLoader) (e : Nat)
    (p : MLPParams) (o : OptState) : List Event :=
  let pT := afterTrain d p o (tl.batchesAt e)
  ((List.range (tl.batchesAt e).length).map (fun i => Event.trainBatch e i)) ++
  (((List.range (vl.batchesAt e).length).map (fun i => Event.valBatch e i)) ++
   [Event.checkpointSave e pT.1 pT.2,
    Event.reportEvent e (epochMetricsAt d tl vl e p o)])

/-- The `(model, optimizer)` state after `k` completed epochs of the epoch
loop, starting from state `(p, o)` at epoch number `start` (only the
training passes modify the state). -/
def stateAfterEpochs (d : Dynamics) (tl : DataLoader) (start : Nat)
    (p : MLPParams) (o : OptState) : Nat → MLPParams × OptState
  | 0 => (p, o)
  | k + 1 =>
      let s := stateAfterEpochs d tl start p o k
      afterTrain d s.1 s.2 (tl.batchesAt (start + k))

/-- The metrics of the epoch at offset `k` of a loop started at `start`
in state `(p, o)`. -/
def loopMetrics (d : Dynamics) (tl vl : DataLoader) (start : Nat)
    (p : MLPParams) (o : OptState) (k : Nat) : Metrics :=
  epochMetricsAt d tl vl (start + k)
    (stateAfterEpochs d tl start p o k).1
    (stateAfterEpochs d tl start p o k).2

/-! ## Concrete data used by the claim witnesses -/

def wParams : MLPParams := ⟨⟨[], []⟩, ⟨[], []⟩, ⟨[], []⟩⟩

def wTrialA : Trial := ⟨⟨64, 64, 1, 64, 0⟩, 2, wParams, ⟨[]⟩⟩

def wTrialB : Trial := ⟨⟨128, 64, 1, 64, 0⟩, 1, wParams, ⟨[]⟩⟩

/-- A concrete environment for the witness of the split claim. -/
def wEnv : TrainEnv :=
  { dyn := ⟨fun p o _ => ⟨p, o, 0, 0⟩, fun _ _ => (0, 0)⟩
    shuffledTrainset := (load_data 5 2).1
    trainOrder := fun _ => []
    valOrder := fun _ => []
    initParams := wParams
    initOpt := ⟨[]⟩
    fs := fun _ => (wParams, ⟨[]⟩) }

/-! ## Characterization lemmas for the accumulator loops -/

lemma listFlatMapCongr {α β : Type} {l : List α} {f g : α → List β}
    (h : ∀ a ∈ l, f a = g a) : l.flatMap f = l.flatMap g := by
  induction l with
  | nil => rfl
  | cons x xs ih =>
      simp only [List.flatMap_cons]
      rw [h x (List.mem_cons_self x xs), ih (fun a ha => h a (List.mem_cons_of_mem x ha))]

lemma runTrainPassAux_spec (d : Dynamics) (e : Nat) :
    ∀ (bs : List Batch) (s : PassState) (i : Nat),
      runTrainPassAux d e s i bs =
        ⟨(afterTrain d s.params s.opt bs).1,
         (afterTrain d s.params s.opt bs).2,
         s.lossSum + ((trainTrajectory d s.params s.opt bs).map Prod.fst).sum,
         s.accSum + ((trainTrajectory d s.params s.opt bs).map Prod.snd).sum,
         s.events ++ (List.range' i bs.length).map (fun j => Event.trainBatch e j)⟩
  | [], s, i => by
      simp [runTrainPassAux, afterTrain, trainTrajectory]
  | b :: bs, s, i => by
      rw [runTrainPassAux, runTrainPassAux_spec d e bs]
      simp [afterTrain, trainTrajectory, List.range'_succ, add_assoc]

lemma runTrainPass_spec (d : Dynamics) (e : Nat) (p : MLPParams) (o : OptState)
    (bs : List Batch) :
    runTrainPass d e p o bs =
      ⟨(afterTrain d p o bs).1, (afterTrain d p o bs).2,
       ((trainTrajectory d p o bs).map Prod.fst).sum,
       ((trainTrajectory d p o bs).map Prod.snd).sum,
       (List.range bs.length).map (fun j => Event.trainBatch e j)⟩ := by
  rw [runTrainPass, runTrainPassAux_spec]
  simp [List.range_eq_range']

lemma runValPassAux_spec (d : Dynamics) (e : Nat) (p : MLPParams) :
    ∀ (bs : List Batch) (s : ValPassState) (i : Nat),
      runValPassAux d e p s i bs =
        ⟨s.lossSum + ((valTrajectory d p bs).map Prod.fst).sum,
         s.accSum + ((valTrajectory d p bs).map Prod.snd).sum,
         s.events ++ (List.range' i bs.length).map (fun j => Event.valBatch e j)⟩
  | [], s, i => by
      simp [runValPassAux, valTrajectory]
  | b :: bs, s, i => by
      rw [runValPassAux, runValPassAux_spec d e p bs]
      simp [valTrajectory, List.range'_succ, add_assoc]

lemma runValPass_spec (d : Dynamics) (e : Nat) (p : MLPParams) (bs : List Batch) :
    runValPass d e p bs =
      ⟨((valTrajectory d p bs).map Prod.fst).sum,
       ((valTrajectory d p bs).map Prod.snd).sum,
       (List.range bs.length).map (fun j => Event.valBatch e j)⟩ := by
  rw [runValPass, runValPassAux_spec]
  simp [List.range_eq_range']

lemma runEpoch_spec (d : Dynamics) (tl vl : DataLoader) (e : Nat)
    (p : MLPParams) (o : OptState) :
    runEpoch d tl vl e p o =
      ⟨(afterTrain d p o (tl.batchesAt e)).1,
       (afterTrain d p o (tl.batchesAt e)).2,
       epochMetricsAt d tl vl e p o,
       epochTrace d tl vl e p o⟩ := by
  rw [runEpoch, runTrainPass_spec, runValPass_spec]
  simp [epochMetricsAt, epochTrace]

lemma stateAfterEpochs_shift (d : Dynamics) (tl : DataLoader) :
    ∀ (k start : Nat) (p : MLPParams) (o : OptState),
      stateAfterEpochs d tl start p o (k + 1) =
        stateAfterEpochs d tl (start + 1)
          (afterTrain d p o (tl.batchesAt start)).1
          (afterTrain d p o (tl.batchesAt start)).2 k
  | 0, start, p, o => by
      simp [stateAfterEpochs]
  | k + 1, start, p, o => by
      have ih := stateAfterEpochs_shift d tl k start p o
      show afterTrain d (stateAfterEpochs d tl start p o (k + 1)).1
          (stateAfterEpochs d tl start p o (k + 1)).2 (tl.batchesAt (start + (k + 1)))
        = _
      rw [ih]
      have h1 : start + (k + 1) = (start + 1) + k := by omega
      rw [h1]
      rfl

/-- The event trace of the epoch loop is the concatenation of the
per-epoch traces, each epoch running from the state reached after the
previous epochs. -/
lemma trainLoop_events (d : Dynamics) (tl vl : DataLoader) :
    ∀ (n start : Nat) (p : MLPParams) (o : OptState),
      (trainLoop d tl vl start n p o).events =
        (List.range n).flatMap (fun k =>
          epochTrace d tl vl (start + k)
            (stateAfterEpochs d tl start p o k).1
            (stateAfterEpochs d tl start p o k).2)
  | 0, _, _, _ => by simp [trainLoop]
  | n + 1, start, p, o => by
      simp only [trainLoop, runEpoch_spec, trainLoop_events d tl vl n (start + 1)]
      rw [List.range_succ_eq_map, List.flatMap_cons, List.flatMap_map]
      refine congrArg₂ _ ?_ ?_
      · show epochTrace d tl vl start p o = _
        rw [Nat.add_zero]
        rfl
      · refine listFlatMapCongr (fun k _ => ?_)
        rw [← stateAfterEpochs_shift d tl k start p o]
        have hnum : (start + 1) + k = start + (k + 1) := by omega
        rw [hnum]

lemma loopMetrics_shift (d : Dynamics) (tl vl : DataLoader) (start : Nat)
    (p : MLPParams) (o : OptState) (k : Nat) :
    loopMetrics d tl vl (start + 1)
        (afterTrain d p o (tl.batchesAt start)).1
        (afterTrain d p o (tl.batchesAt start)).2 k
      = loopMetrics d tl vl start p o (k + 1) := by
  unfold loopMetrics
  rw [← stateAfterEpochs_shift d tl k start p o]
  have hnum : (start + 1) + k = start + (k + 1) := by omega
  rw [hnum]

lemma trainLoop_stats (d : Dynamics) (tl vl : DataLoader) :
    ∀ (n start : Nat) (p : MLPParams) (o : OptState),
      (trainLoop d tl vl start n p o).accuracy_stats.trainL =
          (List.range n).map (fun k => (loopMetrics d tl vl start p o k).train_accuracy) ∧
        (trainLoop d tl vl start n p o).accuracy_stats.valL =
          (List.range n).map (fun k => (loopMetrics d tl vl start p o k).accuracy) ∧
        (trainLoop d tl vl start n p o).loss_stats.trainL =
          (List.range n).map (fun k => (loopMetrics d tl vl start p o k).train_loss) ∧
        (trainLoop d tl vl start n p o).loss_stats.valL =
          (List.range n).map (fun k => (loopMetrics d tl vl start p o k).loss)
  | 0, _, _, _ => by simp [trainLoop]
  | n + 1, start, p, o => by
      have ih := trainLoop_stats d tl vl n (start + 1)
        (afterTrain d p o (tl.batchesAt start)).1
        (afterTrain d p o (tl.batchesAt start)).2
      have hhead : loopMetrics d tl vl start p o 0 = epochMetricsAt d tl vl start p o := by
        unfold loopMetrics
        rw [Nat.add_zero]
        rfl
      have htail : ∀ k : Nat,
          loopMetrics d tl vl (start + 1)
              (afterTrain d p o (tl.batchesAt start)).1
              (afterTrain d p o (tl.batchesAt start)).2 k
            = loopMetrics d tl vl start p o (k + 1) :=
        loopMetrics_shift d tl vl start p o
      simp only [trainLoop, runEpoch_spec, ih.1, ih.2.1, ih.2.2.1, ih.2.2.2]
      rw [List.range_succ_eq_map]
      simp only [List.map_cons, List.map_map]
      refine ⟨?_, ?_, ?_, ?_⟩ <;>
        · rw [hhead.symm]
          refine congrArg₂ _ rfl (List.map_congr_left (fun k _ => ?_))
          simp only [Function.comp_apply]
          rw [htail k]

lemma listFlatMapSingleton {α β : Type} (l : List α) (f : α → β) :
    (l.flatMap fun a => [f a]) = l.map f := by
  induction l with
  | nil => rfl
  | cons x xs ih => simp [List.flatMap_cons, ih]

lemma epochTrace_filter_checkpoint (d : Dynamics) (tl vl : DataLoader) (e : Nat)
    (p : MLPParams) (o : OptState) :
    (epochTrace d tl vl e p o).filter Event.isCheckpointSave =
      [Event.checkpointSave e (afterTrain d p o (tl.batchesAt e)).1
        (afterTrain d p o (tl.batchesAt e)).2] := by
  unfold epochTrace
  simp [List.filter_append, List.filter_map, Function.comp_def, Event.isCheckpointSave]

lemma epochTrace_filter_report (d : Dynamics) (tl vl : DataLoader) (e : Nat)
    (p : MLPParams) (o : OptState) :
    (epochTrace d tl vl e p o).filter Event.isReport =
      [Event.reportEvent e (epochMetricsAt d tl vl e p o)] := by
  unfold epochTrace
  simp [List.filter_append, List.filter_map, Function.comp_def, Event.isReport]

lemma epochTrace_reportedMetrics (d : Dynamics) (tl vl : DataLoader) (e : Nat)
    (p : MLPParams) (o : OptState) :
    (epochTrace d tl vl e p o).filterMap Event.reportedMetrics =
      [epochMetricsAt d tl vl e p o] := by
  unfold epochTrace
  simp only [List.filterMap_append, List.filterMap_map, Function.comp_def,
    Event.reportedMetrics]
  rw [List.filterMap_eq_nil_iff.mpr (fun a _ => rfl),
      List.filterMap_eq_nil_iff.mpr (fun a _ => rfl)]
  simp [List.filterMap_cons, Event.reportedMetrics]

/-- Exactly one checkpoint event per epoch: the checkpoint of the epoch at
offset `k` carries the model and optimizer state after `k + 1` completed
training passes. -/
lemma trainLoop_checkpoints (d : Dynamics) (tl vl : DataLoader) (n start : Nat)
    (p : MLPParams) (o : OptState) :
    (trainLoop d tl vl start n p o).events.filter Event.isCheckpointSave
      = (List.range n).map (fun k =>
          Event.checkpointSave (start + k)
            (stateAfterEpochs d tl start p o (k + 1)).1
            (stateAfterEpochs d tl start p o (k + 1)).2) := by
  rw [trainLoop_events, List.filter_flatMap]
  have h : ∀ k ∈ List.range n,
      (epochTrace d tl vl (start + k)
          (stateAfterEpochs d tl start p o k).1
          (stateAfterEpochs d tl start p o k).2).filter Event.isCheckpointSave
        = [Event.checkpointSave (start + k)
            (stateAfterEpochs d tl start p o (k + 1)).1
            (stateAfterEpochs d tl start p o (k + 1)).2] := by
    intro k _
    rw [epochTrace_filter_checkpoint]
    rfl
  rw [listFlatMapCongr h, listFlatMapSingleton]

/-- Exactly one report event per epoch, carrying the per-epoch metrics. -/
lemma trainLoop_reports (d : Dynamics) (tl vl : DataLoader) (n start : Nat)
    (p : MLPParams) (o : OptState) :
    (trainLoop d tl vl start n p o).events.filter Event.isReport
      = (List.range n).map (fun k =>
          Event.reportEvent (start + k) (loopMetrics d tl vl start p o k)) := by
  rw [trainLoop_events, List.filter_flatMap]
  have h : ∀ k ∈ List.range n,
      (epochTrace d tl vl (start + k)
          (stateAfterEpochs d tl start p o k).1
          (stateAfterEpochs d tl start p o k).2).filter Event.isReport
        = [Event.reportEvent (start + k) (loopMetrics d tl vl start p o k)] := by
    intro k _
    rw [epochTrace_filter_report]
    rfl
  rw [listFlatMapCongr h, listFlatMapSingleton]

/-- The sequence of reported metric records, in epoch order. -/
lemma trainLoop_reportedMetrics (d : Dynamics) (tl vl : DataLoader) (n start : Nat)
    (p : MLPParams) (o : OptState) :
    (trainLoop d tl vl start n p o).events.filterMap Event.reportedMetrics
      = (List.range n).map (fun k => loopMetrics d tl vl start p o k) := by
  rw [trainLoop_events, List.filterMap_flatMap]
  have h : ∀ k ∈ List.range n,
      (epochTrace d tl vl (start + k)
          (stateAfterEpochs d tl start p o k).1
          (stateAfterEpochs d tl start p o k).2).filterMap Event.reportedMetrics
        = [loopMetrics d tl vl start p o k] := by
    intro k _
    rw [epochTrace_reportedMetrics]
    rfl
  rw [listFlatMapCongr h, listFlatMapSingleton]

/-! ## Claim theorems about the training loop -/

/-- Claim C1: in every epoch of `train`, exactly one checkpoint is written,
and its content is the pair `(model state_dict, optimizer state_dict)`;
when `train` is invoked with a non-null `checkpoint_dir`, it restores both
the model state and the optimizer state from the file named `"checkpoint"`
in that directory before the first training epoch begins.  Formally: the
initial state is the loaded pair, and the sequence of checkpoint events of
the run is exactly one event per epoch `e = 1, ..., n`, carrying the
model/optimizer state reached after `e` training passes starting from the
loaded pair. -/
theorem claim_C1_checkpoint_every_epoch_and_restore
    (env : TrainEnv) (config : Config) (dir : String) (nTrain nTest n : Nat) :
    train.initState env (some dir) = env.fs (dir ++ "/checkpoint") ∧
    (train env config (some dir) nTrain nTest n).events.filter Event.isCheckpointSave
      = (List.range' 1 n).map (fun e =>
          Event.checkpointSave e
            (stateAfterEpochs env.dyn (train.loaders env config.batch_size nTrain nTest).1 1
              (env.fs (dir ++ "/checkpoint")).1 (env.fs (dir ++ "/checkpoint")).2 e).1
            (stateAfterEpochs env.dyn (train.loaders env config.batch_size nTrain nTest).1 1
              (env.fs (dir ++ "/checkpoint")).1 (env.fs (dir ++ "/checkpoint")).2 e).2) := by
  refine ⟨rfl, ?_⟩
  show (trainLoop env.dyn (train.loaders env config.batch_size nTrain nTest).1
      (train.loaders env config.batch_size nTrain nTest).2 1 n
      (env.fs (dir ++ "/checkpoint")).1
      (env.fs (dir ++ "/checkpoint")).2).events.filter Event.isCheckpointSave = _
  rw [trainLoop_checkpoints, List.range'_eq_map_range, List.map_map]
  refine List.map_congr_left (fun k _ => ?_)
  simp only [Function.comp_apply]
  rw [Nat.add_comm 1 k]

/-- Claim C2: once per epoch, after the training pass and the validation
pass, `train` reports exactly the four metrics `train_loss`, `loss`,
`train_accuracy` and `accuracy` to the tuning framework, each equal to the
sum of the per-batch values accumulated in that epoch divided by the
number of batches in the corresponding data loader (train metrics over the
training loader, `loss` and `accuracy` over the validation loader). -/
theorem claim_C2_reported_metrics
    (env : TrainEnv) (config : Config) (cd : Option String) (nTrain nTest n : Nat) :
    (train env config cd nTrain nTest n).events.filter Event.isReport
      = (List.range n).map (fun k =>
          let tl := (train.loaders env config.batch_size nTrain nTest).1
          let vl := (train.loaders env config.batch_size nTrain nTest).2
          let s := stateAfterEpochs env.dyn tl 1
            (train.initState env cd).1 (train.initState env cd).2 k
          let ttraj := trainTrajectory env.dyn s.1 s.2 (tl.batchesAt (1 + k))
          let pT := afterTrain env.dyn s.1 s.2 (tl.batchesAt (1 + k))
          let vtraj := valTrajectory env.dyn pT.1 (vl.batchesAt (1 + k))
          Event.reportEvent (1 + k)
            { train_loss := ((ttraj.map Prod.fst).sum) / (tl.len : ℚ)
              loss := ((vtraj.map Prod.fst).sum) / (vl.len : ℚ)
              train_accuracy := ((ttraj.map Prod.snd).sum) / (tl.len : ℚ)
              accuracy := ((vtraj.map Prod.snd).sum) / (vl.len : ℚ) }) := by
  show (trainLoop env.dyn (train.loaders env config.batch_size nTrain nTest).1
      (train.loaders env config.batch_size nTrain nTest).2 1 n
      (train.initState env cd).1
      (train.initState env cd).2).events.filter Event.isReport = _
  rw [trainLoop_reports]
  rfl

/-- Claim C4: for every configuration and every `num_epochs = n ≥ 0` (with
finite data loaders), `train` terminates - it is a total function of its
inputs - and its epoch loop executes exactly `n` iterations: the event
trace is the concatenation, over epochs `1 + k` for `k = 0, ..., n - 1`,
of one full pass over the training loader (one `trainBatch` event per
batch, in order), followed by one full pass over the validation loader,
followed by the checkpoint write and the metric report; in particular
exactly `n` reports happen. -/
theorem claim_C4_termination_and_loop_structure
    (env : TrainEnv) (config : Config) (cd : Option String) (nTrain nTest n : Nat) :
    (train env config cd nTrain nTest n).events
      = (List.range n).flatMap (fun k =>
          let tl := (train.loaders env config.batch_size nTrain nTest).1
          let vl := (train.loaders env config.batch_size nTrain nTest).2
          let s := stateAfterEpochs env.dyn tl 1
            (train.initState env cd).1 (train.initState env cd).2 k
          ((List.range (tl.batchesAt (1 + k)).length).map
              (fun i => Event.trainBatch (1 + k) i)) ++
          (((List.range (vl.batchesAt (1 + k)).length).map
              (fun i => Event.valBatch (1 + k) i)) ++
           [Event.checkpointSave (1 + k)
              (afterTrain env.dyn s.1 s.2 (tl.batchesAt (1 + k))).1
              (afterTrain env.dyn s.1 s.2 (tl.batchesAt (1 + k))).2,
            Event.reportEvent (1 + k) (epochMetricsAt env.dyn tl vl (1 + k) s.1 s.2)])) ∧
    ((train env config cd nTrain nTest n).events.filter Event.isReport).length = n := by
  constructor
  · show (trainLoop env.dyn (train.loaders env config.batch_size nTrain nTest).1
        (train.loaders env config.batch_size nTrain nTest).2 1 n
        (train.initState env cd).1 (train.initState env cd).2).events = _
    rw [trainLoop_events]
    rfl
  · show ((trainLoop env.dyn (train.loaders env config.batch_size nTrain nTest).1
        (train.loaders env config.batch_size nTrain nTest).2 1 n
        (train.initState env cd).1
        (train.initState env cd).2).events.filter Event.isReport).length = n
    rw [trainLoop_reports, List.length_map, List.length_range]

/-- Claim C9: when `train` runs to completion, each of the four lists it
returns (`accuracy_stats['train']`, `accuracy_stats['val']`,
`loss_stats['train']`, `loss_stats['val']`) has length exactly
`num_epochs`, with exactly one entry appended per epoch, and the entry for
epoch `k` equals the value reported to the tuning framework for that
epoch: each stats list is exactly the corresponding projection of the
sequence of reported metric records, in epoch order. -/
theorem claim_C9_stats_lists
    (env : TrainEnv) (config : Config) (cd : Option String) (nTrain nTest n : Nat) :
    let res := train env config cd nTrain nTest n
    res.accuracy_stats.trainL.length = n ∧
    res.accuracy_stats.valL.length = n ∧
    res.loss_stats.trainL.length = n ∧
    res.loss_stats.valL.length = n ∧
    res.accuracy_stats.trainL
      = (res.events.filterMap Event.reportedMetrics).map Metrics.train_accuracy ∧
    res.accuracy_stats.valL
      = (res.events.filterMap Event.reportedMetrics).map Metrics.accuracy ∧
    res.loss_stats.trainL
      = (res.events.filterMap Event.reportedMetrics).map Metrics.train_loss ∧
    res.loss_stats.valL
      = (res.events.filterMap Event.reportedMetrics).map Metrics.loss := by
  intro res
  have hres : res = trainLoop env.dyn
      (train.loaders env config.batch_size nTrain nTest).1
      (train.loaders env config.batch_size nTrain nTest).2 1 n
      (train.initState env cd).1 (train.initState env cd).2 := rfl
  have hs := trainLoop_stats env.dyn
    (train.loaders env config.batch_size nTrain nTest).1
    (train.loaders env config.batch_size nTrain nTest).2 n 1
    (train.initState env cd).1 (train.initState env cd).2
  have hr := trainLoop_reportedMetrics env.dyn
    (train.loaders env config.batch_size nTrain nTest).1
    (train.loaders env config.batch_size nTrain nTest).2 n 1
    (train.initState env cd).1 (train.initState env cd).2
  rw [hres]
  refine ⟨?_, ?_, ?_, ?_, ?_, ?_, ?_, ?_⟩
  · rw [hs.1, List.length_map, List.length_range]
  · rw [hs.2.1, List.length_map, List.length_range]
  · rw [hs.2.2.1, List.length_map, List.length_range]
  · rw [hs.2.2.2, List.length_map, List.length_range]
  · rw [hs.1, hr, List.map_map]
    rfl
  · rw [hs.2.1, hr, List.map_map]
    rfl
  · rw [hs.2.2.1, hr, List.map_map]
    rfl
  · rw [hs.2.2.2, hr, List.map_map]
    rfl

/-! ## Claim theorems about the model architectures -/

/-- Claim C5: `train` builds the model it trains from the configuration:
it constructs an MLP whose layers, applied in order, are
`Linear(784 -> config["l1"])`, ReLU, `Dropout(config["dr"])`,
`Linear(config["l1"] -> config["l2"])`, ReLU, `Dropout(config["dr"])`,
`Linear(config["l2"] -> 10)`, ReLU, then LogSoftmax over dimension 1,
after flattening each input sample to a 784-element vector. -/
theorem claim_C5_mlp_architecture (config : Config) :
    train.buildNet config.l1 config.l2 config.dr
      = Model.mlp (MLP.init config.l1 config.l2 config.dr) ∧
    (MLP.init config.l1 config.l2 config.dr).forwardTrace
      = [LayerSpec.flattenL,
         LayerSpec.linearL 784 config.l1, LayerSpec.reluL,
         LayerSpec.dropoutL config.dr,
         LayerSpec.linearL config.l1 config.l2, LayerSpec.reluL,
         LayerSpec.dropoutL config.dr,
         LayerSpec.linearL config.l2 10, LayerSpec.reluL,
         LayerSpec.logSoftmaxL 1] :=
  ⟨rfl, rfl⟩

/-- Claim C8: `test_accuracy` is deterministic: the network is in eval
mode (dropout disabled), gradients are off and the loader does not
shuffle, so its result does not depend on the randomness stream - for a
fixed parameter state and fixed test set, any two invocations agree. -/
theorem claim_C8_test_accuracy_deterministic
    (P : MLPParams) (dr : ℚ) (lsm : Vec → Vec) (expF : ℚ → ℚ)
    (pixels : Nat → Vec) (labels : Nat → Nat) (nTrain nTest : Nat)
    (rng1 rng2 : RNG) :
    test_accuracy P dr lsm expF pixels labels nTrain nTest rng1
      = test_accuracy P dr lsm expF pixels labels nTrain nTest rng2 := by
  have hpred : evalPrediction P dr lsm expF pixels rng1
      = evalPrediction P dr lsm expF pixels rng2 := by
    funext s
    unfold evalPrediction
    simp [MLP.forward, dropoutApply]
  unfold test_accuracy
  rw [hpred]

/-- Claim C10: the convolutional variant `Net` is never constructed by the
training function or the search driver (both construct only `MLP`), and
`Net.forward`'s first layer is `Conv2d(3, 6, 5)`, so applying `Net` to the
single-channel images produced by `load_data` fails with a shape mismatch
(`none`) rather than returning a result. -/
theorem claim_C10_net_unused_and_shape_mismatch
    (sem : ConvSem) (P : NetFCParams) (pixels : Nat → Vec) (i : Nat)
    (l1 l2 : Nat) (dr : ℚ) :
    (train.buildNet l1 l2 dr).isMLP = true ∧
    (main.buildBestModel l1 l2 dr).isMLP = true ∧
    Net.forward sem P (datasetImage pixels i) = none := by
  refine ⟨rfl, rfl, ?_⟩
  simp [Net.forward, conv2d, datasetImage, loadDataChannels]

/-! ## Claim theorem about the search driver configuration -/

set_option maxRecDepth 8000 in
/-- Claim C6: the hyperparameter grid defined by `main` is the full cross
product of `l1` in 64, 128, 256, 512, `l2` in 64, 128, 256, 512, `lr` in
0.0005, 0.001, 0.0007, `batch_size` in 64, 128, 256 and `dr` in 0.3, 0.5,
0.85 (432 configurations); the early-stopping scheduler minimizes the
metric `"loss"` with `max_t = max_num_epochs`, grace period 1 and
reduction factor 2; each trial is allocated 2 CPUs and `gpus_per_trial`
GPUs. -/
theorem claim_C6_grid_scheduler_resources :
    mainGridConfigs.length = 432 ∧
    (∀ cfg : Config, cfg ∈ mainGridConfigs ↔
      (cfg.l1 ∈ ([64, 128, 256, 512] : List Nat) ∧
       cfg.l2 ∈ ([64, 128, 256, 512] : List Nat) ∧
       cfg.lr ∈ ([0.0005, 0.001, 0.0007] : List ℚ) ∧
       cfg.batch_size ∈ ([64, 128, 256] : List Nat) ∧
       cfg.dr ∈ ([0.3, 0.5, 0.85] : List ℚ))) ∧
    (∀ m : Nat, mainScheduler m = ⟨"loss", "min", m, 1, 2⟩) ∧
    (∀ g : Nat, mainResources g = ⟨2, g⟩) := by
  have hL1 : mainL1Values = [64, 128, 256, 512] := by decide
  have hL2 : mainL2Values = [64, 128, 256, 512] := by decide
  refine ⟨by decide, ?_, fun m => rfl, fun g => rfl⟩
  intro cfg
  constructor
  · intro h
    simp only [mainGridConfigs, List.mem_flatMap, List.mem_map] at h
    obtain ⟨a, ha, b, hb, c, hc, d, hd, e, he, hef⟩ := h
    cases hef
    rw [hL1] at ha
    rw [hL2] at hb
    exact ⟨ha, hb, hc, hd, he⟩
  · rintro ⟨h1, h2, h3, h4, h5⟩
    simp only [mainGridConfigs, List.mem_flatMap, List.mem_map]
    refine ⟨cfg.l1, ?_, cfg.l2, ?_, cfg.lr, h3, cfg.batch_size, h4, cfg.dr, h5, rfl⟩
    · rw [hL1]
      exact h1
    · rw [hL2]
      exact h2

/-! ## Claim theorem about best-trial selection and final evaluation -/

lemma get_best_trial_eq_none : ∀ (ts : List Trial), get_best_trial ts = none → ts = []
  | [], _ => rfl
  | x :: xs, h => by
      rw [get_best_trial] at h
      cases hxs : get_best_trial xs with
      | none =>
          rw [hxs] at h
          exact absurd h (by simp)
      | some u =>
          rw [hxs] at h
          by_cases hlt : u.lastLoss < x.lastLoss <;> simp [hlt] at h

lemma get_best_trial_spec :
    ∀ (ts : List Trial) (t : Trial), get_best_trial ts = some t →
      t ∈ ts ∧ ∀ u ∈ ts, t.lastLoss ≤ u.lastLoss
  | [], t, h => by simp [get_best_trial] at h
  | x :: xs, t, h => by
      rw [get_best_trial] at h
      cases hxs : get_best_trial xs with
      | none =>
          rw [hxs] at h
          have hnil : xs = [] := get_best_trial_eq_none xs hxs
          subst hnil
          have h' : some x = some t := h
          injection h' with h'
          subst h'
          refine ⟨List.mem_singleton_self _, ?_⟩
          intro u hu
          rw [List.mem_singleton] at hu
          subst hu
          exact le_refl _
      | some u =>
          rw [hxs] at h
          have h' : (if u.lastLoss < x.lastLoss then some u else some x) = some t := h
          obtain ⟨hmem, hmin⟩ := get_best_trial_spec xs u hxs
          by_cases hlt : u.lastLoss < x.lastLoss
          · rw [if_pos hlt] at h'
            injection h' with h'
            subst h'
            refine ⟨List.mem_cons_of_mem x hmem, ?_⟩
            intro v hv
            rcases List.mem_cons.mp hv with hvx | hvxs
            · subst hvx
              exact le_of_lt hlt
            · exact hmin v hvxs
          · rw [if_neg hlt] at h'
            injection h' with h'
            subst h'
            refine ⟨List.mem_cons_self _ xs, ?_⟩
            intro v hv
            rcases List.mem_cons.mp hv with hvx | hvxs
            · subst hvx
              exact le_refl _
            · exact le_trans (le_of_not_lt hlt) (hmin v hvxs)

/-- Claim C7: after the sweep, `main` selects the best trial by minimum
last-reported `"loss"` (the selected trial belongs to the trial list and
its last loss is a minimum), constructs a fresh `MLP` from that trial's
`l1`, `l2` and `dr` configuration values, loads the model state - and
only the model state - from that trial's checkpoint into it, and
evaluates the loaded model's accuracy on the held-out test set: the final
phase equals `test_accuracy` of the checkpointed model state, and its
result does not depend on the optimizer half of the checkpoint. -/
theorem claim_C7_best_trial_selection_and_eval
    (trials : List Trial) (t : Trial) (h : get_best_trial trials = some t) :
    t ∈ trials ∧
    (∀ u ∈ trials, t.lastLoss ≤ u.lastLoss) ∧
    main.buildBestModel t.config.l1 t.config.l2 t.config.dr
      = Model.mlp (MLP.init t.config.l1 t.config.l2 t.config.dr) ∧
    (∀ (lsm : Vec → Vec) (expF : ℚ → ℚ) (pixels : Nat → Vec) (labels : Nat → Nat)
        (nTrain nTest : Nat) (rng : RNG),
      mainEvalPhase t lsm expF pixels labels nTrain nTest rng
        = test_accuracy t.checkpointModel t.config.dr lsm expF pixels labels
            nTrain nTest rng) ∧
    (∀ (o1 o2 : OptState) (lsm : Vec → Vec) (expF : ℚ → ℚ) (pixels : Nat → Vec)
        (labels : Nat → Nat) (nTrain nTest : Nat) (rng : RNG),
      mainEvalPhase { t with checkpointOpt := o1 } lsm expF pixels labels
          nTrain nTest rng
        = mainEvalPhase { t with checkpointOpt := o2 } lsm expF pixels labels
            nTrain nTest rng) := by
  obtain ⟨hmem, hmin⟩ := get_best_trial_spec trials t h
  exact ⟨hmem, hmin, rfl, fun _ _ _ _ _ _ _ => rfl,
    fun _ _ _ _ _ _ _ _ _ => rfl⟩

/-- Witness for claim C7: on the concrete two-trial list, `get_best_trial`
returns the trial with the smaller last loss, and the theorem's conclusion
holds for it. -/
theorem claim_C7_witness :
    get_best_trial [wTrialA, wTrialB] = some wTrialB ∧
    (wTrialB ∈ [wTrialA, wTrialB] ∧
     (∀ u ∈ [wTrialA, wTrialB], wTrialB.lastLoss ≤ u.lastLoss) ∧
     main.buildBestModel wTrialB.config.l1 wTrialB.config.l2 wTrialB.config.dr
       = Model.mlp (MLP.init wTrialB.config.l1 wTrialB.config.l2 wTrialB.config.dr) ∧
     (∀ (lsm : Vec → Vec) (expF : ℚ → ℚ) (pixels : Nat → Vec) (labels : Nat → Nat)
         (nTrain nTest : Nat) (rng : RNG),
       mainEvalPhase wTrialB lsm expF pixels labels nTrain nTest rng
         = test_accuracy wTrialB.checkpointModel wTrialB.config.dr lsm expF pixels
             labels nTrain nTest rng) ∧
     (∀ (o1 o2 : OptState) (lsm : Vec → Vec) (expF : ℚ → ℚ) (pixels : Nat → Vec)
         (labels : Nat → Nat) (nTrain nTest : Nat) (rng : RNG),
       mainEvalPhase { wTrialB with checkpointOpt := o1 } lsm expF pixels labels
           nTrain nTest rng
         = mainEvalPhase { wTrialB with checkpointOpt := o2 } lsm expF pixels labels
             nTrain nTest rng)) :=
  ⟨by decide, claim_C7_best_trial_selection_and_eval [wTrialA, wTrialB] wTrialB (by decide)⟩

/-! ## Claim theorem about the train/validation/test split -/

lemma load_data_fst_length (nTrain nTest : Nat) :
    (load_data nTrain nTest).1.length = nTrain := by
  simp [load_data]

lemma load_data_fst_nodup (nTrain nTest : Nat) : (load_data nTrain nTest).1.Nodup := by
  refine List.Nodup.map ?_ (List.nodup_range nTrain)
  intro a b hab
  simpa using hab

lemma testAbs_le (n : Nat) : train.testAbs n ≤ n := by
  unfold train.testAbs
  omega

/-- Claim C3: for every dataset of size `N` loaded by `load_data`, `train`
splits the training dataset into a training subset of size
`int(N * 0.8)` and a validation subset of size `N - int(N * 0.8)`; the
two subsets are disjoint, together cover the training dataset, and the
test dataset is kept separate from both.  The hypothesis states that the
permutation drawn by `random_split` is a permutation of the loaded
training dataset. -/
theorem claim_C3_split (env : TrainEnv) (nTrain nTest : Nat)
    (h : env.shuffledTrainset.Perm (load_data nTrain nTest).1) :
    (train.subsets env nTrain nTest).1.length = train.testAbs nTrain ∧
    (train.subsets env nTrain nTest).2.length = nTrain - train.testAbs nTrain ∧
    (∀ s, s ∈ (train.subsets env nTrain nTest).1 →
      s ∉ (train.subsets env nTrain nTest).2) ∧
    (∀ s, s ∈ (load_data nTrain nTest).1 ↔
      (s ∈ (train.subsets env nTrain nTest).1 ∨
       s ∈ (train.subsets env nTrain nTest).2)) ∧
    (∀ s, s ∈ (load_data nTrain nTest).2 →
      s ∉ (train.subsets env nTrain nTest).1 ∧
      s ∉ (train.subsets env nTrain nTest).2) := by
  have hlen : env.shuffledTrainset.length = nTrain := by
    rw [h.length_eq, load_data_fst_length]
  have hsub : train.subsets env nTrain nTest
      = (env.shuffledTrainset.take (train.testAbs nTrain),
         env.shuffledTrainset.drop (train.testAbs nTrain)) := by
    unfold train.subsets random_split
    rw [load_data_fst_length]
  have hnodup : env.shuffledTrainset.Nodup :=
    h.symm.nodup (load_data_fst_nodup nTrain nTest)
  have happ : env.shuffledTrainset.take (train.testAbs nTrain) ++
      env.shuffledTrainset.drop (train.testAbs nTrain) = env.shuffledTrainset :=
    List.take_append_drop _ _
  refine ⟨?_, ?_, ?_, ?_, ?_⟩
  · rw [hsub]
    simp only [List.length_take, hlen]
    exact Nat.min_eq_left (testAbs_le nTrain)
  · rw [hsub]
    simp [List.length_drop, hlen]
  · rw [hsub]
    intro s hs1 hs2
    have hnd : (env.shuffledTrainset.take (train.testAbs nTrain) ++
        env.shuffledTrainset.drop (train.testAbs nTrain)).Nodup := by
      rw [happ]
      exact hnodup
    rw [List.nodup_append] at hnd
    exact hnd.2.2 hs1 hs2
  · intro s
    rw [hsub]
    constructor
    · intro hs
      have hmem : s ∈ env.shuffledTrainset := h.mem_iff.mpr hs
      rw [← happ] at hmem
      exact List.mem_append.mp hmem
    · intro hs
      refine h.mem_iff.mp ?_
      rw [← happ]
      exact List.mem_append.mpr hs
  · intro s hs
    rw [hsub]
    have hstag : s.1 = Src.testSet := by
      simp only [load_data, List.mem_map] at hs
      obtain ⟨i, _, hsi⟩ := hs
      rw [← hsi]
    have hcontra : s ∉ env.shuffledTrainset := by
      intro hmem
      have htr : s.1 = Src.trainSet := by
        have hl := h.mem_iff.mp hmem
        simp only [load_data, List.mem_map] at hl
        obtain ⟨i, _, hsi⟩ := hl
        rw [← hsi]
      rw [hstag] at htr
      exact absurd htr (by decide)
    constructor
    · intro hmem
      refine hcontra ?_
      rw [← happ]
      exact List.mem_append_left _ hmem
    · intro hmem
      refine hcontra ?_
      rw [← happ]
      exact List.mem_append_right _ hmem

/-- Witness for claim C3: the identity permutation of the five-element
loaded training dataset satisfies the hypothesis, and the split
conclusion holds for it. -/
theorem claim_C3_witness :
    wEnv.shuffledTrainset.Perm (load_data 5 2).1 ∧
    ((train.subsets wEnv 5 2).1.length = train.testAbs 5 ∧
     (train.subsets wEnv 5 2).2.length = 5 - train.testAbs 5 ∧
     (∀ s, s ∈ (train.subsets wEnv 5 2).1 → s ∉ (train.subsets wEnv 5 2).2) ∧
     (∀ s, s ∈ (load_data 5 2).1 ↔
       (s ∈ (train.subsets wEnv 5 2).1 ∨ s ∈ (train.subsets wEnv 5 2).2)) ∧
     (∀ s, s ∈ (load_data 5 2).2 →
       s ∉ (train.subsets wEnv 5 2).1 ∧ s ∉ (train.subsets wEnv 5 2).2)) :=
  ⟨List.Perm.refl _, claim_C3_split wEnv 5 2 (List.Perm.refl _)⟩

end RayTune
